import Mathlib

/-
Verification of the telemetry writer core: sample normalization, lap/session
tracking and CSV lap serialization. The session manager is embedded from
src/src/session_manager.py. The sample normalizer and the CSV formatter
(src/mvp_format.py, src/csv_formatter.py) are not present in the repository
snapshot — only their unit tests are — so they are modelled from the spec,
with every behaviour the tests pin reproduced exactly; such definitions carry
a doc comment starting "Modelled from the spec:".
Numeric telemetry values are embedded as exact rationals.
-/

namespace Writer

/-- Clamp a rational value into the closed interval from lo to hi. -/
def clampQ (lo hi v : ℚ) : ℚ := min hi (max lo v)

/-- Raw telemetry sample: one tick's flat mapping from the reader. Only the
fields the normalizer and the session manager read are modelled; an absent
key is `none`. -/
structure RawSample where
  lap : Option ℤ
  lap_distance : Option ℚ
  lap_time : Option ℚ
  sector : Option ℤ
  speed : Option ℚ
  engine_revs : Option ℚ
  throttle : Option ℚ
  brake : Option ℚ
  steering : Option ℚ
  gear : Option ℤ
  position_x : Option ℚ
  position_y : Option ℚ
  position_z : Option ℚ
  track_length : Option ℚ
deriving DecidableEq

/-- Raw sample with every field absent. -/
def RawSample.empty : RawSample :=
  ⟨none, none, none, none, none, none, none, none, none, none, none, none,
   none, none⟩

/-- Canonical (normalized) sample: the fixed schema behind the canonical
column names; `none` encodes a null cell. -/
structure CanonicalSample where
  lapDistance : Option ℚ
  lapTime : Option ℚ
  sector : Option ℤ
  speed : Option ℚ
  engineRevs : Option ℚ
  throttle : Option ℚ
  brake : Option ℚ
  steer : Option ℚ
  gear : Option ℤ
  posX : Option ℚ
  posY : Option ℚ
  posZ : Option ℚ
deriving DecidableEq

namespace SampleNormalizer

/-- Modelled from the spec: src/mvp_format.py (class SampleNormalizer) is
missing from the repository snapshot; only src/tests/test_sample_normalizer.py
is present. Percent-or-fraction detection for throttle/brake channels (spec
section 4.1): a value recognised as a fraction is multiplied by 100, then the
result is clamped to [0, 100]. The detection threshold is pinned by the tests:
brake 1.2 is scaled and clamped to 100 while brake 3.2 and throttle 75.5 pass
through unchanged, so the threshold lies in [1.25, 3.2); 2 is used here. -/
def toPercentChannel (v : ℚ) : ℚ :=
  clampQ 0 100 (if |v| ≤ 2 then v * 100 else v)

/-- Modelled from the spec: the signed steering channel. Same detection as
`toPercentChannel` but clamped to [-100, 100]: the repository's own test
pins steering -1.25 to -100, so the implementation clamps, contrary to the
spec's unclamped reading. -/
def toSteerChannel (v : ℚ) : ℚ :=
  clampQ (-100) 100 (if |v| ≤ 2 then v * 100 else v)

/-- Modelled from the spec: sector estimation (spec section 4.1). With no
explicit sector, the sector is floor((lap_distance / track_length) *
sector_count) clamped to [0, sector_count - 1]; a missing or zero
track_length disables estimation and yields sector 0. -/
def estimateSector (sectorCount : ℕ) (dist : ℚ) (trackLength : Option ℚ) : ℤ :=
  match trackLength with
  | none => 0
  | some len =>
      if len = 0 then 0
      else max 0 (min ((sectorCount : ℤ) - 1) ⌊dist / len * (sectorCount : ℚ)⌋)

/-- Modelled from the spec: SampleNormalizer.normalize with an explicit
sector count. Missing numeric channels default to 0, integer channels to 0,
and coordinates pass through with `none` preserved. -/
def normalizeWith (sectorCount : ℕ) (raw : RawSample) : CanonicalSample :=
  { lapDistance := some (raw.lap_distance.getD 0)
    lapTime := some (raw.lap_time.getD 0)
    sector := some (match raw.sector with
        | some s => s
        | none =>
            estimateSector sectorCount (raw.lap_distance.getD 0)
              raw.track_length)
    speed := some (raw.speed.getD 0)
    engineRevs := some (raw.engine_revs.getD 0)
    throttle := some (toPercentChannel (raw.throttle.getD 0))
    brake := some (toPercentChannel (raw.brake.getD 0))
    steer := some (toSteerChannel (raw.steering.getD 0))
    gear := some (raw.gear.getD 0)
    posX := raw.position_x
    posY := raw.position_y
    posZ := raw.position_z }

/-- Modelled from the spec: SampleNormalizer.normalize with the default
sector count of 3. -/
def normalize : RawSample → CanonicalSample := normalizeWith 3

end SampleNormalizer

/-- State of SessionManager (src/src/session_manager.py): the stored current
lap (initially the 0 sentinel) and the buffer of normalized samples for the
current lap. The session-state enum and the session id do not interact with
any claim and are omitted from the state. -/
structure SessionManager where
  current_lap : ℤ
  lap_samples : List CanonicalSample
deriving DecidableEq

/-- SessionManager.__init__: current_lap = 0 and an empty buffer. -/
def SessionManager.init : SessionManager := ⟨0, []⟩

/-- SessionManager.update: reads telemetry.get('lap', 0); the events dict
contains lap_completed = True exactly when the incoming lap differs from the
stored one and the stored one is greater than 0; the stored lap is then set
to the incoming one unconditionally. Returned as (lap_completed, new state). -/
def SessionManager.update (m : SessionManager) (telemetry : RawSample) :
    Bool × SessionManager :=
  let new_lap := telemetry.lap.getD 0
  (if new_lap ≠ m.current_lap ∧ 0 < m.current_lap then true else false,
   ⟨new_lap, m.lap_samples⟩)

/-- SessionManager.add_sample: normalize the telemetry and append it to the
lap buffer. -/
def SessionManager.add_sample (m : SessionManager) (telemetry : RawSample) :
    SessionManager :=
  ⟨m.current_lap, m.lap_samples ++ [SampleNormalizer.normalize telemetry]⟩

/-- SessionManager.get_lap_data returns self.lap_samples.copy(); as a value
this is the buffer's contents (the copy/aliasing semantics are modelled
separately by `TrackerStore`). -/
def SessionManager.get_lap_data (m : SessionManager) : List CanonicalSample :=
  m.lap_samples

/-- SessionManager.clear_lap_buffer empties the buffer. -/
def SessionManager.clear_lap_buffer (m : SessionManager) : SessionManager :=
  ⟨m.current_lap, []⟩

/-- SessionManager.get_lap_summary: the empty mapping when the buffer is
empty; otherwise the four-entry association list the source builds, with
'lap_time' and 'lap_distance' read from the last buffered sample with
default 0.0 and 'samples_count' the buffer length. All values are embedded
into the rationals. -/
def SessionManager.get_lap_summary (m : SessionManager) : List (String × ℚ) :=
  match m.lap_samples.getLast? with
  | none => []
  | some last =>
      [("lap", (m.current_lap : ℚ)),
       ("lap_time", last.lapTime.getD 0),
       ("samples_count", (m.lap_samples.length : ℚ)),
       ("lap_distance", last.lapDistance.getD 0)]

/-- Python-object view of the tracker used for the snapshot claim: the heap
holds every list object ever allocated, indexed by allocation order, and
bufId is the index of the object bound to self.lap_samples. -/
structure TrackerStore where
  objs : List (List CanonicalSample)
  bufId : ℕ
deriving DecidableEq

namespace TrackerStore

/-- Contents of the list object with the given id (empty for a dangling id,
which never arises from the modelled operations). -/
def deref (st : TrackerStore) (i : ℕ) : List CanonicalSample := st.objs.getD i []

/-- Contents of the object self.lap_samples is bound to. -/
def buffer (st : TrackerStore) : List CanonicalSample := st.deref st.bufId

/-- get_lap_data as heap action: self.lap_samples.copy() allocates a fresh
list object with the buffer's current contents and returns its id. -/
def get_lap_data (st : TrackerStore) : ℕ × TrackerStore :=
  (st.objs.length, ⟨st.objs ++ [st.buffer], st.bufId⟩)

/-- add_sample as heap action: append the normalized sample in place to the
object self.lap_samples is bound to. -/
def add_sample (st : TrackerStore) (telemetry : RawSample) : TrackerStore :=
  ⟨st.objs.set st.bufId (st.buffer ++ [SampleNormalizer.normalize telemetry]),
   st.bufId⟩

/-- clear_lap_buffer as heap action: self.lap_samples.clear() empties the
bound object in place. -/
def clear_lap_buffer (st : TrackerStore) : TrackerStore :=
  ⟨st.objs.set st.bufId [], st.bufId⟩

end TrackerStore

/-- Modelled from the spec: the fixed canonical column order of the lap file
(constant MVP_TELEMETRY_HEADER of the missing src/mvp_format.py); the names
and their order are pinned by src/tests/test_csv_formatter.py. -/
def MVP_TELEMETRY_HEADER : List String :=
  ["LapDistance [m]", "LapTime [s]", "Sector [int]", "Speed [km/h]",
   "EngineRevs [rpm]", "ThrottlePercentage [%]", "BrakePercentage [%]",
   "Steer [%]", "Gear [int]", "X [m]", "Y [m]", "Z [m]"]

namespace CSVFormatter

/-- Decimal digits of a natural number, most significant first, via a fuel
argument that strictly bounds the digit count. -/
def natDigitsAux : ℕ → ℕ → List Char → List Char
  | 0, _, acc => acc
  | fuel + 1, n, acc =>
    let d := Char.ofNat (48 + n % 10)
    if n < 10 then d :: acc else natDigitsAux fuel (n / 10) (d :: acc)

/-- Decimal digits of a natural number as characters. -/
def natDigits (n : ℕ) : List Char := natDigitsAux (n + 1) n []

/-- Render the integer m as the decimal number m / 10 ^ p with exactly p
digits after the point (no point when p = 0), as Python '%.pf' formatting
renders an exact value. -/
def fixedString (m : ℤ) (p : ℕ) : String :=
  let ds := natDigits m.natAbs
  let ds := List.replicate (p + 1 - ds.length) '0' ++ ds
  let sign := if m < 0 then "-" else ""
  if p = 0 then sign ++ ⟨ds⟩
  else sign ++ ⟨ds.take (ds.length - p)⟩ ++ "." ++ ⟨ds.drop (ds.length - p)⟩

/-- Drop trailing zeros of the fractional part, and a then-trailing point:
Python's round-then-str rendering that keeps 99.95 as "99.95" and turns
-4.50 into "-4.5". Strings without a point are returned unchanged. -/
def trimZeros (s : String) : String :=
  if '.' ∈ s.data then
    ⟨(((s.data.reverse.dropWhile (· = '0')).dropWhile (· = '.'))).reverse⟩
  else s

/-- Round a rational to p decimal places, returning the scaled integer:
half-up rounding of q * 10 ^ p (no modelled value sits at a tie). -/
def scaledRound (q : ℚ) (p : ℕ) : ℤ := ⌊q * 10 ^ p + 1 / 2⌋

/-- Fixed-width rendering: p decimals, padded (distance, time, coordinates). -/
def fmtFixed (q : ℚ) (p : ℕ) : String := fixedString (scaledRound q p) p

/-- Trimmed rendering: round to p decimals, no padding (percent channels). -/
def fmtTrim (q : ℚ) (p : ℕ) : String := trimZeros (fmtFixed q p)

/-- Render an optional rational cell: a null value is an empty cell. -/
def optCell (f : ℚ → String) : Option ℚ → String
  | none => ""
  | some q => f q

/-- Render an optional integer cell with no decimal point; null is empty. -/
def intCell : Option ℤ → String
  | none => ""
  | some i => fixedString i 0

/-- Modelled from the spec: the cells of one data row in header order with
field-class-specific rounding (spec section 4.3): distance/time-like fields
3 decimals, percentage-like fields 2 decimals without padding, integer
fields no decimal point, coordinates 2 decimals, and a null value an empty
cell. Speed and engine revs are not pinned by any test; they use the
trimmed 2-decimal rendering. -/
def rowCells (s : CanonicalSample) : List String :=
  [optCell (fmtFixed · 3) s.lapDistance,
   optCell (fmtFixed · 3) s.lapTime,
   intCell s.sector,
   optCell (fmtTrim · 2) s.speed,
   optCell (fmtTrim · 2) s.engineRevs,
   optCell (fmtTrim · 2) s.throttle,
   optCell (fmtTrim · 2) s.brake,
   optCell (fmtTrim · 2) s.steer,
   intCell s.gear,
   optCell (fmtFixed · 2) s.posX,
   optCell (fmtFixed · 2) s.posY,
   optCell (fmtFixed · 2) s.posZ]

/-- One data row: the cells joined with commas. -/
def renderRow (s : CanonicalSample) : String :=
  String.intercalate "," (rowCells s)

/-- Sort key of a data row: the lap-distance field (a normalized sample
always carries one; a null distance sorts as 0). -/
def distKey (s : CanonicalSample) : ℚ := s.lapDistance.getD 0

/-- Stable insertion of a sample into a distance-sorted list: an incoming
sample goes before the first strictly-later element and after earlier or
equal ones, as Python's stable sorted() leaves equal keys in input order. -/
def insertByDist (s : CanonicalSample) :
    List CanonicalSample → List CanonicalSample
  | [] => [s]
  | t :: ts =>
      if distKey s ≤ distKey t then s :: t :: ts else t :: insertByDist s ts

/-- Stable sort of the samples by ascending lap distance. -/
def sortByDist : List CanonicalSample → List CanonicalSample
  | [] => []
  | s :: ss => insertByDist s (sortByDist ss)

/-- Modelled from the spec: CSVFormatter.format_lap of the missing
src/csv_formatter.py. Empty sample list: empty string. Otherwise, one
key,value line per metadata entry in insertion order, the comma-joined
canonical header line, then one rendered row per sample in ascending
lap-distance order, all newline-joined. -/
def format_lap (samples : List CanonicalSample)
    (metadata : List (String × String)) : String :=
  if samples.isEmpty then ""
  else
    String.intercalate "\n"
      (metadata.map (fun kv => kv.1 ++ "," ++ kv.2) ++
        String.intercalate "," MVP_TELEMETRY_HEADER ::
          (sortByDist samples).map renderRow)

end CSVFormatter

/-- Raw sample carrying only a steering value. -/
def rawSteer (v : ℚ) : RawSample := { RawSample.empty with steering := some v }

/-- Raw sample carrying the same value on throttle and brake. -/
def rawPedal (v : ℚ) : RawSample :=
  { RawSample.empty with throttle := some v, brake := some v }

/-- Raw sample of test_preserves_explicit_percentages combined with the
clamped brake of test_scales_fractional_inputs: throttle 75.5, brake 1.2. -/
def rawPedalMixed : RawSample :=
  { RawSample.empty with throttle := some 75.5, brake := some 1.2 }

/-- Raw sample of test_sector_estimation_uses_track_length: lap distance 300
on a 900 m track, no explicit sector. -/
def rawSectorEst : RawSample :=
  { RawSample.empty with lap_distance := some 300, lap_time := some 0,
                         track_length := some 900 }

/-- The sample_row fixture of src/tests/test_csv_formatter.py. -/
def testSampleRow : CanonicalSample :=
  { lapDistance := some 12.34567
    lapTime := some 0.45678
    sector := some 1
    speed := some 210.9876
    engineRevs := some 7400.321
    throttle := some 99.95
    brake := some 0.25
    steer := some (-4.5)
    gear := some 4
    posX := some (-10.1234)
    posY := some 7.30001
    posZ := none }

/-- Mostly-empty sample at lap distance 1 with throttle 10. -/
def sampleT10 : CanonicalSample :=
  { lapDistance := some 1, lapTime := none, sector := none, speed := none,
    engineRevs := none, throttle := some 10, brake := none, steer := none,
    gear := none, posX := none, posY := none, posZ := none }

/-- Mostly-empty sample at the same lap distance 1 but throttle 20. -/
def sampleT20 : CanonicalSample :=
  { sampleT10 with throttle := some 20 }

/-- One-entry metadata mapping. -/
def mdEx : List (String × String) := [("Format", "LMUTelemetry v2")]

/-- Manager on lap 5 holding one buffered sample. -/
def mgrEx : SessionManager := ⟨5, [testSampleRow]⟩

/-- Tracker heap holding one buffer object with one sample. -/
def storeEx : TrackerStore := ⟨[[testSampleRow]], 0⟩

/-! Helper lemmas about the percent channels. -/

theorem clampQ_eq_self {lo hi v : ℚ} (h1 : lo ≤ v) (h2 : v ≤ hi) :
    clampQ lo hi v = v := by
  rw [clampQ, max_eq_right h1, min_eq_right h2]

theorem toPercentChannel_fraction {v : ℚ} (h : |v| ≤ 1) :
    SampleNormalizer.toPercentChannel v = clampQ 0 100 (v * 100) := by
  rw [SampleNormalizer.toPercentChannel, if_pos (h.trans (by norm_num))]

theorem toPercentChannel_passthrough {v : ℚ} (h : 2 < |v|) :
    SampleNormalizer.toPercentChannel v = clampQ 0 100 v := by
  rw [SampleNormalizer.toPercentChannel, if_neg (not_le.mpr h)]

theorem toSteerChannel_fraction {v : ℚ} (h : |v| ≤ 1) :
    SampleNormalizer.toSteerChannel v = v * 100 := by
  rw [SampleNormalizer.toSteerChannel, if_pos (h.trans (by norm_num))]
  rcases abs_le.mp h with ⟨h1, h2⟩
  exact clampQ_eq_self (by linarith) (by linarith)

/-- C1: the claim's universal half — for raw steering with magnitude at most
one, the normalized steering is exactly the raw value times 100 — holds; the
claim's unclamped half fails (see the counterexample): a raw steering value
beyond the detection range is scaled and then clamped to the signed percent
range, so -1.25 normalizes to -100, never to -125. -/
theorem C1_theorem (v : ℚ) (h : |v| ≤ 1) :
    (SampleNormalizer.normalize (rawSteer v)).steer = some (v * 100) ∧
      (SampleNormalizer.normalize (rawSteer (-1.25))).steer = some (-100) := by
  constructor
  · simp [SampleNormalizer.normalize, SampleNormalizer.normalizeWith, rawSteer,
      RawSample.empty, toSteerChannel_fraction h]
  · simp [SampleNormalizer.normalize, SampleNormalizer.normalizeWith, rawSteer,
      RawSample.empty, SampleNormalizer.toSteerChannel]
    norm_num [clampQ, abs_le]

/-- C1 witness: the theorem instantiated at the raw steering value 1/2. -/
theorem C1_witness :
    |(1 / 2 : ℚ)| ≤ 1 ∧
      ((SampleNormalizer.normalize (rawSteer (1 / 2))).steer =
          some ((1 / 2) * 100) ∧
        (SampleNormalizer.normalize (rawSteer (-1.25))).steer = some (-100)) :=
  ⟨by norm_num [abs_le], C1_theorem (1 / 2) (by norm_num [abs_le])⟩

/-- C2: the claim's fraction half — for pedal values of magnitude at most
one, the normalized value is clamp(v*100, 0, 100) — holds, and the passed
through half holds above the detection threshold (2 in this model); but the
threshold is not 1: the tested brake value 1.2 is scaled to 120 and clamped
to 100 (see the counterexample), and throttle 75.5 passes through. -/
theorem C2_theorem (v : ℚ) :
    (|v| ≤ 1 →
      (SampleNormalizer.normalize (rawPedal v)).throttle =
          some (clampQ 0 100 (v * 100)) ∧
        (SampleNormalizer.normalize (rawPedal v)).brake =
          some (clampQ 0 100 (v * 100))) ∧
      (2 < |v| →
        (SampleNormalizer.normalize (rawPedal v)).throttle =
            some (clampQ 0 100 v) ∧
          (SampleNormalizer.normalize (rawPedal v)).brake =
            some (clampQ 0 100 v)) ∧
      (SampleNormalizer.normalize rawPedalMixed).brake = some 100 ∧
      (SampleNormalizer.normalize rawPedalMixed).throttle = some 75.5 := by
  refine ⟨fun h => ?_, fun h => ?_, ?_, ?_⟩
  · simp [SampleNormalizer.normalize, SampleNormalizer.normalizeWith, rawPedal,
      RawSample.empty, toPercentChannel_fraction h]
  · simp [SampleNormalizer.normalize, SampleNormalizer.normalizeWith, rawPedal,
      RawSample.empty, toPercentChannel_passthrough h]
  · simp [SampleNormalizer.normalize, SampleNormalizer.normalizeWith,
      rawPedalMixed, RawSample.empty, SampleNormalizer.toPercentChannel]
    norm_num [clampQ, abs_le]
  · simp [SampleNormalizer.normalize, SampleNormalizer.normalizeWith,
      rawPedalMixed, RawSample.empty, SampleNormalizer.toPercentChannel]
    norm_num [clampQ, abs_of_nonneg]

/-- C2 witness: the theorem instantiated at the raw pedal value 1/2, with
both implications exercised (the second vacuously stands at 3 below). -/
theorem C2_witness :
    (SampleNormalizer.normalize (rawPedal (1 / 2))).throttle =
        some (clampQ 0 100 ((1 / 2) * 100)) ∧
      (SampleNormalizer.normalize (rawPedal 3)).brake =
        some (clampQ 0 100 3) :=
  ⟨((C2_theorem (1 / 2)).1 (by norm_num [abs_le])).1,
   ((C2_theorem 3).2.1 (by norm_num [abs_le])).2⟩

/-- C2 counterexample: a raw brake value of 1.2 exceeds 1, so by the claim's
already-scaled rule it would normalize to clamp(1.2, 0, 100) = 1.2; the
behaviour pinned by the repository's test is 100 (scaled then clamped). -/
theorem C2_counterexample :
    (SampleNormalizer.normalize (rawPedal 1.2)).brake = some 100 ∧
      clampQ 0 100 (1.2 : ℚ) ≠ 100 := by
  constructor
  · simp [SampleNormalizer.normalize, SampleNormalizer.normalizeWith, rawPedal,
      RawSample.empty, SampleNormalizer.toPercentChannel]
    norm_num [clampQ, abs_le]
  · norm_num [clampQ]

/-- C3: SessionManager.update signals lap_completed exactly when the
incoming lap number (telemetry.get('lap', 0)) differs from the stored
current lap and the stored lap is greater than 0, and it always stores the
incoming lap number. -/
theorem C3_theorem (m : SessionManager) (t : RawSample) :
    ((m.update t).1 = true ↔
        (t.lap.getD 0 ≠ m.current_lap ∧ 0 < m.current_lap)) ∧
      (m.update t).2.current_lap = t.lap.getD 0 := by
  refine ⟨?_, rfl⟩
  show (if t.lap.getD 0 ≠ m.current_lap ∧ 0 < m.current_lap then true
      else false) = true ↔ _
  by_cases hc : t.lap.getD 0 ≠ m.current_lap ∧ 0 < m.current_lap
  · rw [if_pos hc]
    simp [hc]
  · rw [if_neg hc]
    simpa using hc

/-- C10: a telemetry mapping without a 'lap' key reads as lap 0, so if the
stored lap is positive the update signals lap_completed and resets the
stored lap to 0. -/
theorem C10_theorem (m : SessionManager) (t : RawSample) (h1 : t.lap = none)
    (h2 : 0 < m.current_lap) :
    (m.update t).1 = true ∧ (m.update t).2.current_lap = 0 := by
  have hl : t.lap.getD 0 = 0 := by rw [h1]; rfl
  constructor
  · show (if t.lap.getD 0 ≠ m.current_lap ∧ 0 < m.current_lap then true
        else false) = true
    rw [hl, if_pos ⟨h2.ne, h2⟩]
  · show t.lap.getD 0 = 0
    exact hl

/-- C10 witness: the theorem at the lap-5 manager and the empty raw sample. -/
theorem C10_witness :
    RawSample.empty.lap = none ∧ 0 < mgrEx.current_lap ∧
      (mgrEx.update RawSample.empty).1 = true ∧
      (mgrEx.update RawSample.empty).2.current_lap = 0 :=
  ⟨rfl, by decide, C10_theorem mgrEx RawSample.empty rfl (by decide)⟩

/-- C6: format_lap of an empty sample list is the empty string, for every
metadata mapping. -/
theorem C6_theorem (md : List (String × String)) :
    CSVFormatter.format_lap [] md = "" := rfl

/-- C7: a raw sample without an explicit sector gets the estimated sector
floor((lap_distance / track_length) * sector_count) clamped to
[0, sector_count - 1]; a missing or zero track length yields sector 0; and
the tested instance lap_distance 300, track_length 900 with the default
sector count 3 yields sector 1. -/
theorem C7_theorem (n : ℕ) (raw : RawSample) (h : raw.sector = none) :
    (∀ L : ℚ, raw.track_length = some L → L ≠ 0 →
        (SampleNormalizer.normalizeWith n raw).sector =
          some (max 0 (min ((n : ℤ) - 1)
            ⌊raw.lap_distance.getD 0 / L * (n : ℚ)⌋))) ∧
      (raw.track_length = none →
        (SampleNormalizer.normalizeWith n raw).sector = some 0) ∧
      (raw.track_length = some 0 →
        (SampleNormalizer.normalizeWith n raw).sector = some 0) ∧
      (SampleNormalizer.normalize rawSectorEst).sector = some 1 := by
  refine ⟨fun L hL hL0 => ?_, fun hL => ?_, fun hL => ?_, ?_⟩
  · simp [SampleNormalizer.normalizeWith, h, hL,
      SampleNormalizer.estimateSector, if_neg hL0]
  · simp [SampleNormalizer.normalizeWith, h, hL,
      SampleNormalizer.estimateSector]
  · simp [SampleNormalizer.normalizeWith, h, hL,
      SampleNormalizer.estimateSector]
  · simp [SampleNormalizer.normalize, SampleNormalizer.normalizeWith,
      rawSectorEst, RawSample.empty, SampleNormalizer.estimateSector]
    norm_num [Int.floor_eq_iff]

/-- C7 witness: the theorem at the sector-estimation test input. -/
theorem C7_witness :
    rawSectorEst.sector = none ∧
      ((∀ L : ℚ, rawSectorEst.track_length = some L → L ≠ 0 →
          (SampleNormalizer.normalizeWith 3 rawSectorEst).sector =
            some (max 0 (min ((3 : ℤ) - 1)
              ⌊rawSectorEst.lap_distance.getD 0 / L * (3 : ℚ)⌋))) ∧
        (rawSectorEst.track_length = none →
          (SampleNormalizer.normalizeWith 3 rawSectorEst).sector = some 0) ∧
        (rawSectorEst.track_length = some 0 →
          (SampleNormalizer.normalizeWith 3 rawSectorEst).sector = some 0) ∧
        (SampleNormalizer.normalize rawSectorEst).sector = some 1) :=
  ⟨rfl, C7_theorem 3 rawSectorEst rfl⟩

/-- C8: for a nonempty buffer the summary lists the stored lap, the last
sample's lap time, the buffer length and the last sample's lap distance — in
the source under the keys lap, lap_time, samples_count and lap_distance (the
count key is samples_count, not the claimed sample_count) — and an empty
buffer gives the empty mapping. -/
theorem C8_theorem (m : SessionManager) (h : m.lap_samples ≠ []) :
    (∃ last, m.lap_samples.getLast? = some last ∧
        m.get_lap_summary =
          [("lap", (m.current_lap : ℚ)),
           ("lap_time", last.lapTime.getD 0),
           ("samples_count", (m.lap_samples.length : ℚ)),
           ("lap_distance", last.lapDistance.getD 0)]) ∧
      (∀ m2 : SessionManager, m2.lap_samples = [] →
        m2.get_lap_summary = []) := by
  constructor
  · cases hl : m.lap_samples.getLast? with
    | none => exact absurd (List.getLast?_eq_none_iff.mp hl) h
    | some last =>
        exact ⟨last, rfl, by rw [SessionManager.get_lap_summary, hl]⟩
  · intro m2 h2
    rw [SessionManager.get_lap_summary, List.getLast?_eq_none_iff.mpr h2]

/-- C8 witness: the theorem at the lap-5 manager holding one sample. -/
theorem C8_witness :
    mgrEx.lap_samples ≠ [] ∧
      ((∃ last, mgrEx.lap_samples.getLast? = some last ∧
          mgrEx.get_lap_summary =
            [("lap", (mgrEx.current_lap : ℚ)),
             ("lap_time", last.lapTime.getD 0),
             ("samples_count", (mgrEx.lap_samples.length : ℚ)),
             ("lap_distance", last.lapDistance.getD 0)]) ∧
        (∀ m2 : SessionManager, m2.lap_samples = [] →
          m2.get_lap_summary = [])) :=
  ⟨List.cons_ne_nil _ _, C8_theorem mgrEx (List.cons_ne_nil _ _)⟩

/-- C8 counterexample: the key list of a nonempty summary is lap, lap_time,
samples_count, lap_distance; the claimed key sample_count is not among the
keys. -/
theorem C8_counterexample :
    (mgrEx.get_lap_summary).map Prod.fst =
        ["lap", "lap_time", "samples_count", "lap_distance"] ∧
      "sample_count" ∉ (mgrEx.get_lap_summary).map Prod.fst := by
  constructor
  · rfl
  · intro hmem
    rw [show (mgrEx.get_lap_summary).map Prod.fst =
        ["lap", "lap_time", "samples_count", "lap_distance"] from rfl] at hmem
    simp at hmem

/-- C9: get_lap_data allocates a copy of the buffer: the returned snapshot
object holds the buffer's contents at call time, and neither a later
add_sample nor a later clear_lap_buffer changes the snapshot object. -/
theorem C9_theorem (st : TrackerStore) (h : st.bufId < st.objs.length)
    (raw : RawSample) :
    (st.get_lap_data).2.deref (st.get_lap_data).1 = st.buffer ∧
      ((st.get_lap_data).2.add_sample raw).deref (st.get_lap_data).1 =
        st.buffer ∧
      ((st.get_lap_data).2.clear_lap_buffer).deref (st.get_lap_data).1 =
        st.buffer := by
  have hne : st.bufId ≠ st.objs.length := Nat.ne_of_lt h
  refine ⟨?_, ?_, ?_⟩
  · show (st.objs ++ [st.buffer]).getD st.objs.length [] = st.buffer
    rw [List.getD_eq_getElem?_getD, List.getElem?_concat_length]
    rfl
  · show ((st.objs ++ [st.buffer]).set st.bufId _).getD st.objs.length []
        = st.buffer
    rw [List.getD_eq_getElem?_getD, List.getElem?_set_ne hne,
      List.getElem?_concat_length]
    rfl
  · show ((st.objs ++ [st.buffer]).set st.bufId []).getD st.objs.length []
        = st.buffer
    rw [List.getD_eq_getElem?_getD, List.getElem?_set_ne hne,
      List.getElem?_concat_length]
    rfl

/-- C9 witness: the theorem at the one-object heap and the empty raw sample. -/
theorem C9_witness :
    storeEx.bufId < storeEx.objs.length ∧
      ((storeEx.get_lap_data).2.deref (storeEx.get_lap_data).1 =
          storeEx.buffer ∧
        ((storeEx.get_lap_data).2.add_sample RawSample.empty).deref
            (storeEx.get_lap_data).1 = storeEx.buffer ∧
        ((storeEx.get_lap_data).2.clear_lap_buffer).deref
            (storeEx.get_lap_data).1 = storeEx.buffer) :=
  ⟨by decide, C9_theorem storeEx (by decide) RawSample.empty⟩

/-- C5: the test fixture row renders with field-class-specific rounding —
distance and time to 3 decimals (12.34567 as 12.346), percent channels to 2
decimals without padding (99.95 stays 99.95, -4.5 stays -4.5), integer
fields without a decimal point, coordinates to 2 decimals, the null Z as an
empty cell — and, generally, a null value in any of the twelve columns
renders as the empty cell. -/
theorem C5_theorem :
    CSVFormatter.renderRow testSampleRow =
        "12.346,0.457,1,210.99,7400.32,99.95,0.25,-4.5,4,-10.12,7.30," ∧
      ∀ s : CanonicalSample,
        (s.lapDistance = none → (CSVFormatter.rowCells s).getD 0 "x" = "") ∧
        (s.lapTime = none → (CSVFormatter.rowCells s).getD 1 "x" = "") ∧
        (s.sector = none → (CSVFormatter.rowCells s).getD 2 "x" = "") ∧
        (s.speed = none → (CSVFormatter.rowCells s).getD 3 "x" = "") ∧
        (s.engineRevs = none → (CSVFormatter.rowCells s).getD 4 "x" = "") ∧
        (s.throttle = none → (CSVFormatter.rowCells s).getD 5 "x" = "") ∧
        (s.brake = none → (CSVFormatter.rowCells s).getD 6 "x" = "") ∧
        (s.steer = none → (CSVFormatter.rowCells s).getD 7 "x" = "") ∧
        (s.gear = none → (CSVFormatter.rowCells s).getD 8 "x" = "") ∧
        (s.posX = none → (CSVFormatter.rowCells s).getD 9 "x" = "") ∧
        (s.posY = none → (CSVFormatter.rowCells s).getD 10 "x" = "") ∧
        (s.posZ = none → (CSVFormatter.rowCells s).getD 11 "x" = "") := by
  constructor
  · have e0 : CSVFormatter.scaledRound (12.34567 : ℚ) 3 = 12346 := by
      rw [CSVFormatter.scaledRound, Int.floor_eq_iff]; norm_num
    have e1 : CSVFormatter.scaledRound (0.45678 : ℚ) 3 = 457 := by
      rw [CSVFormatter.scaledRound, Int.floor_eq_iff]; norm_num
    have e3 : CSVFormatter.scaledRound (210.9876 : ℚ) 2 = 21099 := by
      rw [CSVFormatter.scaledRound, Int.floor_eq_iff]; norm_num
    have e4 : CSVFormatter.scaledRound (7400.321 : ℚ) 2 = 740032 := by
      rw [CSVFormatter.scaledRound, Int.floor_eq_iff]; norm_num
    have e5 : CSVFormatter.scaledRound (99.95 : ℚ) 2 = 9995 := by
      rw [CSVFormatter.scaledRound, Int.floor_eq_iff]; norm_num
    have e6 : CSVFormatter.scaledRound (0.25 : ℚ) 2 = 25 := by
      rw [CSVFormatter.scaledRound, Int.floor_eq_iff]; norm_num
    have e7 : CSVFormatter.scaledRound (-4.5 : ℚ) 2 = -450 := by
      rw [CSVFormatter.scaledRound, Int.floor_eq_iff]; norm_num
    have e9 : CSVFormatter.scaledRound (-10.1234 : ℚ) 2 = -1012 := by
      rw [CSVFormatter.scaledRound, Int.floor_eq_iff]; norm_num
    have e10 : CSVFormatter.scaledRound (7.30001 : ℚ) 2 = 730 := by
      rw [CSVFormatter.scaledRound, Int.floor_eq_iff]; norm_num
    have h0 : CSVFormatter.fmtFixed (12.34567 : ℚ) 3 = "12.346" := by
      rw [CSVFormatter.fmtFixed, e0]; decide
    have h1 : CSVFormatter.fmtFixed (0.45678 : ℚ) 3 = "0.457" := by
      rw [CSVFormatter.fmtFixed, e1]; decide
    have h3 : CSVFormatter.fmtTrim (210.9876 : ℚ) 2 = "210.99" := by
      rw [CSVFormatter.fmtTrim, CSVFormatter.fmtFixed, e3]; decide
    have h4 : CSVFormatter.fmtTrim (7400.321 : ℚ) 2 = "7400.32" := by
      rw [CSVFormatter.fmtTrim, CSVFormatter.fmtFixed, e4]; decide
    have h5 : CSVFormatter.fmtTrim (99.95 : ℚ) 2 = "99.95" := by
      rw [CSVFormatter.fmtTrim, CSVFormatter.fmtFixed, e5]; decide
    have h6 : CSVFormatter.fmtTrim (0.25 : ℚ) 2 = "0.25" := by
      rw [CSVFormatter.fmtTrim, CSVFormatter.fmtFixed, e6]; decide
    have h7 : CSVFormatter.fmtTrim (-4.5 : ℚ) 2 = "-4.5" := by
      rw [CSVFormatter.fmtTrim, CSVFormatter.fmtFixed, e7]; decide
    have h9 : CSVFormatter.fmtFixed (-10.1234 : ℚ) 2 = "-10.12" := by
      rw [CSVFormatter.fmtFixed, e9]; decide
    have h10 : CSVFormatter.fmtFixed (7.30001 : ℚ) 2 = "7.30" := by
      rw [CSVFormatter.fmtFixed, e10]; decide
    simp only [CSVFormatter.renderRow, CSVFormatter.rowCells, testSampleRow,
      CSVFormatter.optCell, CSVFormatter.intCell,
      h0, h1, h3, h4, h5, h6, h7, h9, h10]
    decide
  · intro s
    refine ⟨fun h => ?_, fun h => ?_, fun h => ?_, fun h => ?_, fun h => ?_,
      fun h => ?_, fun h => ?_, fun h => ?_, fun h => ?_, fun h => ?_,
      fun h => ?_, fun h => ?_⟩ <;>
      simp [CSVFormatter.rowCells, h, CSVFormatter.optCell,
        CSVFormatter.intCell]

/-! Lemmas about the stable insertion sort by lap distance. -/

theorem insertByDist_perm (s : CanonicalSample) (l : List CanonicalSample) :
    (CSVFormatter.insertByDist s l).Perm (s :: l) := by
  induction l with
  | nil => exact List.Perm.refl _
  | cons t ts ih =>
      rw [CSVFormatter.insertByDist]
      split
      · exact List.Perm.refl _
      · exact (ih.cons t).trans (List.Perm.swap s t ts)

theorem sortByDist_perm (l : List CanonicalSample) :
    (CSVFormatter.sortByDist l).Perm l := by
  induction l with
  | nil => exact List.Perm.refl _
  | cons s ss ih =>
      rw [CSVFormatter.sortByDist]
      exact (insertByDist_perm s _).trans (ih.cons s)

theorem insertByDist_pairwise {s : CanonicalSample}
    {l : List CanonicalSample}
    (hl : l.Pairwise (fun a b => CSVFormatter.distKey a ≤ CSVFormatter.distKey b)) :
    (CSVFormatter.insertByDist s l).Pairwise
      (fun a b => CSVFormatter.distKey a ≤ CSVFormatter.distKey b) := by
  induction l with
  | nil => simp [CSVFormatter.insertByDist]
  | cons t ts ih =>
      rw [CSVFormatter.insertByDist]
      rcases List.pairwise_cons.mp hl with ⟨ht, hts⟩
      split
      case isTrue hst =>
        refine List.pairwise_cons.mpr ⟨?_, hl⟩
        intro b hb
        rcases List.mem_cons.mp hb with rfl | hbts
        · exact hst
        · exact hst.trans (ht b hbts)
      case isFalse hst =>
        refine List.pairwise_cons.mpr ⟨?_, ih hts⟩
        intro b hb
        rcases List.mem_cons.mp ((insertByDist_perm s ts).mem_iff.mp hb) with
          rfl | hbts
        · exact (not_le.mp hst).le
        · exact ht b hbts

theorem sortByDist_pairwise (l : List CanonicalSample) :
    (CSVFormatter.sortByDist l).Pairwise
      (fun a b => CSVFormatter.distKey a ≤ CSVFormatter.distKey b) := by
  induction l with
  | nil => simp [CSVFormatter.sortByDist]
  | cons s ss ih =>
      rw [CSVFormatter.sortByDist]
      exact insertByDist_pairwise ih

theorem eq_of_perm_of_sortedKeys :
    ∀ {l1 l2 : List CanonicalSample}, l1.Perm l2 →
      l1.Pairwise (fun a b => CSVFormatter.distKey a ≤ CSVFormatter.distKey b) →
      l2.Pairwise (fun a b => CSVFormatter.distKey a ≤ CSVFormatter.distKey b) →
      (l1.map CSVFormatter.distKey).Nodup → l1 = l2 := by
  intro l1
  induction l1 with
  | nil =>
      intro l2 hp _ _ _
      exact (hp.symm.eq_nil).symm
  | cons a t1 ih =>
      intro l2 hp hs1 hs2 hnd
      cases l2 with
      | nil => exact absurd hp.eq_nil (List.cons_ne_nil a t1)
      | cons b t2 =>
          rcases List.pairwise_cons.mp hs1 with ⟨ha, hs1t⟩
          rcases List.pairwise_cons.mp hs2 with ⟨hb, hs2t⟩
          rcases List.nodup_cons.mp hnd with ⟨hka, hndt⟩
          have hab : a = b := by
            rcases List.mem_cons.mp
                (hp.mem_iff.mpr (List.mem_cons_self b t2)) with hba | hbt1
            · exact hba.symm
            · rcases List.mem_cons.mp
                  (hp.mem_iff.mp (List.mem_cons_self a t1)) with hab | hat2
              · exact hab
              · have hk : CSVFormatter.distKey a = CSVFormatter.distKey b :=
                  le_antisymm (ha b hbt1) (hb a hat2)
                exact absurd (hk ▸ List.mem_map_of_mem CSVFormatter.distKey hbt1)
                  hka
          subst hab
          rw [ih hp.cons_inv hs1t hs2t hndt]

theorem sortByDist_eq_of_perm {l1 l2 : List CanonicalSample}
    (hp : l1.Perm l2) (hd : (l1.map CSVFormatter.distKey).Nodup) :
    CSVFormatter.sortByDist l1 = CSVFormatter.sortByDist l2 :=
  eq_of_perm_of_sortedKeys
    ((sortByDist_perm l1).trans (hp.trans (sortByDist_perm l2).symm))
    (sortByDist_pairwise l1) (sortByDist_pairwise l2)
    ((((sortByDist_perm l1).map CSVFormatter.distKey).nodup_iff).mpr hd)

/-- C4: amended — format_lap emits the metadata lines in caller order, then
the canonical header line, then the data rows in ascending lap-distance
order with ties keeping insertion order; and for samples whose lap distances
are pairwise distinct the output is invariant under permutation of the
input list (with equal distances a permutation may reorder the tied rows,
see the counterexample). -/
theorem C4_theorem (samples others : List CanonicalSample)
    (md : List (String × String)) (h : samples ≠ [])
    (hp : samples.Perm others)
    (hd : (samples.map CSVFormatter.distKey).Nodup) :
    CSVFormatter.format_lap samples md =
        String.intercalate "\n"
          (md.map (fun kv => kv.1 ++ "," ++ kv.2) ++
            String.intercalate "," MVP_TELEMETRY_HEADER ::
              (CSVFormatter.sortByDist samples).map CSVFormatter.renderRow) ∧
      ((CSVFormatter.sortByDist samples).map CSVFormatter.distKey).Pairwise
        (· ≤ ·) ∧
      CSVFormatter.format_lap samples md =
        CSVFormatter.format_lap others md := by
  have hne : ¬samples.isEmpty := by simpa using h
  have hothers : ¬others.isEmpty := by
    simp only [List.isEmpty_iff]
    intro h2
    exact h (List.Perm.eq_nil (h2 ▸ hp))
  refine ⟨?_, ?_, ?_⟩
  · rw [CSVFormatter.format_lap, if_neg hne]
  · exact List.pairwise_map.mpr (sortByDist_pairwise samples)
  · rw [CSVFormatter.format_lap, CSVFormatter.format_lap, if_neg hne,
      if_neg hothers, sortByDist_eq_of_perm hp hd]

/-- C4 witness: the theorem at the one-sample list and the one-entry
metadata mapping. -/
theorem C4_witness :
    ([sampleT10] : List CanonicalSample) ≠ [] ∧
      ([sampleT10] : List CanonicalSample).Perm [sampleT10] ∧
      (([sampleT10] : List CanonicalSample).map CSVFormatter.distKey).Nodup ∧
      (CSVFormatter.format_lap [sampleT10] mdEx =
          String.intercalate "\n"
            (mdEx.map (fun kv => kv.1 ++ "," ++ kv.2) ++
              String.intercalate "," MVP_TELEMETRY_HEADER ::
                (CSVFormatter.sortByDist [sampleT10]).map
                  CSVFormatter.renderRow) ∧
        ((CSVFormatter.sortByDist [sampleT10]).map
            CSVFormatter.distKey).Pairwise (· ≤ ·) ∧
        CSVFormatter.format_lap [sampleT10] mdEx =
          CSVFormatter.format_lap [sampleT10] mdEx) :=
  ⟨List.cons_ne_nil _ _, List.Perm.refl _, List.nodup_singleton _,
   C4_theorem [sampleT10] [sampleT10] mdEx (List.cons_ne_nil _ _)
     (List.Perm.refl _) (List.nodup_singleton _)⟩

set_option maxRecDepth 8192 in
/-- C4 counterexample: two distinct samples share lap distance 1; swapping
them permutes the input but changes the rendered output, because the stable
sort keeps tied rows in insertion order — so the data rows are not identical
for every permutation of the same samples. -/
theorem C4_counterexample :
    ([sampleT10, sampleT20] : List CanonicalSample).Perm
        [sampleT20, sampleT10] ∧
      CSVFormatter.format_lap [sampleT10, sampleT20] mdEx ≠
        CSVFormatter.format_lap [sampleT20, sampleT10] mdEx := by
  refine ⟨List.Perm.swap sampleT20 sampleT10 [], ?_⟩
  have e1 : CSVFormatter.scaledRound (1 : ℚ) 3 = 1000 := by
    rw [CSVFormatter.scaledRound, Int.floor_eq_iff]; norm_num
  have e10 : CSVFormatter.scaledRound (10 : ℚ) 2 = 1000 := by
    rw [CSVFormatter.scaledRound, Int.floor_eq_iff]; norm_num
  have e20 : CSVFormatter.scaledRound (20 : ℚ) 2 = 2000 := by
    rw [CSVFormatter.scaledRound, Int.floor_eq_iff]; norm_num
  have hf1 : CSVFormatter.fmtFixed (1 : ℚ) 3 = "1.000" := by
    rw [CSVFormatter.fmtFixed, e1]; decide
  have hf10 : CSVFormatter.fmtTrim (10 : ℚ) 2 = "10" := by
    rw [CSVFormatter.fmtTrim, CSVFormatter.fmtFixed, e10]; decide
  have hf20 : CSVFormatter.fmtTrim (20 : ℚ) 2 = "20" := by
    rw [CSVFormatter.fmtTrim, CSVFormatter.fmtFixed, e20]; decide
  have hA : CSVFormatter.renderRow sampleT10 = "1.000,,,,,10,,,,,," := by
    simp only [CSVFormatter.renderRow, CSVFormatter.rowCells, sampleT10,
      CSVFormatter.optCell, CSVFormatter.intCell, hf1, hf10]
    decide
  have hB : CSVFormatter.renderRow sampleT20 = "1.000,,,,,20,,,,,," := by
    simp only [CSVFormatter.renderRow, CSVFormatter.rowCells, sampleT20,
      sampleT10, CSVFormatter.optCell, CSVFormatter.intCell, hf1, hf20]
    decide
  have hs1 : CSVFormatter.sortByDist [sampleT10, sampleT20] =
      [sampleT10, sampleT20] := by
    simp [CSVFormatter.sortByDist, CSVFormatter.insertByDist,
      CSVFormatter.distKey, sampleT10, sampleT20]
  have hs2 : CSVFormatter.sortByDist [sampleT20, sampleT10] =
      [sampleT20, sampleT10] := by
    simp [CSVFormatter.sortByDist, CSVFormatter.insertByDist,
      CSVFormatter.distKey, sampleT10, sampleT20]
  rw [CSVFormatter.format_lap, CSVFormatter.format_lap, if_neg (by decide),
    if_neg (by decide), hs1, hs2]
  simp only [List.map_cons, List.map_nil, hA, hB, mdEx]
  decide

/-- C1 counterexample: the raw steering value -1.25 normalizes to -100, not
to the -125 the claim states, so the value is clamped after scaling. -/
theorem C1_counterexample :
    (SampleNormalizer.normalize (rawSteer (-1.25))).steer = some (-100) ∧
      (SampleNormalizer.normalize (rawSteer (-1.25))).steer ≠ some (-125) := by
  constructor
  · simp [SampleNormalizer.normalize, SampleNormalizer.normalizeWith, rawSteer,
      RawSample.empty, SampleNormalizer.toSteerChannel]
    norm_num [clampQ, abs_le]
  · simp [SampleNormalizer.normalize, SampleNormalizer.normalizeWith, rawSteer,
      RawSample.empty, SampleNormalizer.toSteerChannel]
    norm_num [clampQ, abs_le]

end Writer
